import Mathlib

/-!
Shallow embedding of the papa_meds session-validation and monthly-report
core (validation.py and pages/02_Export_Page.py), together with theorems
checking the specification's claims against it.

Python `datetime.strptime` parsing of `"%H:%M"`, `"%Y-%m-%d"` patterns is
modelled by explicit digit parsers with the same accepted language
(1-2 digit hour 0-23, 1-2 digit minute 0-59; exactly 4 digit year,
1-2 digit month / day validated against the calendar).  `date.today()` is
passed in explicitly as a proleptic-Gregorian ordinal.  Missing dictionary
fields are modelled with `Option`; functions that in the source assume a
field is present read it with a default that fails parsing.
-/

namespace PapaMeds

/-- Split a character list at every occurrence of `sep`
(Python `str.split(sep)` on a one-character separator). -/
def splitOnChar (sep : Char) : List Char → List (List Char)
  | [] => [[]]
  | c :: rest =>
    let r := splitOnChar sep rest
    if c = sep then [] :: r
    else
      match r with
      | g :: gs => (c :: g) :: gs
      | [] => [[c]]

/-- Characters are all decimal digits and the list is nonempty. -/
def allDigits (cs : List Char) : Bool :=
  decide (cs.length ≥ 1) && cs.all Char.isDigit

/-- Numeric value of a list of decimal digits. -/
def digitsToNat (cs : List Char) : Nat :=
  cs.foldl (fun a c => a * 10 + (c.toNat - 48)) 0

/-- Parse `"%H:%M"` exactly as `datetime.strptime` accepts it:
1-2 digit hour `0..23`, a colon, 1-2 digit minute `0..59`, nothing else.
Returns minutes of day. -/
def parseTime (s : String) : Option Nat :=
  match splitOnChar ':' s.toList with
  | [hs, ms] =>
    if hs.length ≤ 2 && allDigits hs && ms.length ≤ 2 && allDigits ms then
      let h := digitsToNat hs
      let m := digitsToNat ms
      if h ≤ 23 && m ≤ 59 then some (h * 60 + m) else none
    else none
  | _ => none

/-- Leap year in the proleptic Gregorian calendar (as Python's `datetime`). -/
def isLeap (y : Nat) : Bool :=
  y % 4 == 0 && (y % 100 != 0 || y % 400 == 0)

/-- Number of days in a month. -/
def daysInMonth (y m : Nat) : Nat :=
  if m = 2 then (if isLeap y then 29 else 28)
  else if m = 4 ∨ m = 6 ∨ m = 9 ∨ m = 11 then 30
  else 31

/-- Days in the months of year `y` strictly before month `m`. -/
def daysBeforeMonth (y m : Nat) : Nat :=
  let leapAdd := if isLeap y then 1 else 0
  match m with
  | 1 => 0
  | 2 => 31
  | 3 => 59 + leapAdd
  | 4 => 90 + leapAdd
  | 5 => 120 + leapAdd
  | 6 => 151 + leapAdd
  | 7 => 181 + leapAdd
  | 8 => 212 + leapAdd
  | 9 => 243 + leapAdd
  | 10 => 273 + leapAdd
  | 11 => 304 + leapAdd
  | _ => 334 + leapAdd

/-- Proleptic-Gregorian ordinal of a date, as Python's `date.toordinal`
(0001-01-01 has ordinal 1). -/
def toOrdinal (y m d : Nat) : Nat :=
  365 * (y - 1) + (y - 1) / 4 - (y - 1) / 100 + (y - 1) / 400
    + daysBeforeMonth y m + d

/-- Python weekday convention: Monday = 0, ..., Sunday = 6. -/
def weekdayOf (y m d : Nat) : Nat :=
  (toOrdinal y m d - 1) % 7

/-- Parse `"%Y-%m-%d"` exactly as `datetime.strptime` accepts it:
4 digit year (year 0 is then rejected by the `date` constructor),
1-2 digit month `1..12`, 1-2 digit day valid for the month. -/
def parseDate (s : String) : Option (Nat × Nat × Nat) :=
  match splitOnChar '-' s.toList with
  | [ys, ms, ds] =>
    if ys.length = 4 && allDigits ys
        && ms.length ≤ 2 && allDigits ms
        && ds.length ≤ 2 && allDigits ds then
      let y := digitsToNat ys
      let m := digitsToNat ms
      let d := digitsToNat ds
      if 1 ≤ y && 1 ≤ m && m ≤ 12 && 1 ≤ d && d ≤ daysInMonth y m then
        some (y, m, d)
      else none
    else none
  | _ => none

/-- Left-pad a natural number's decimal form with zeros to width 2. -/
def pad2 (n : Nat) : String :=
  if n < 10 then "0" ++ toString n else toString n

/-- Left-pad a natural number's decimal form with zeros to width 4
(`strftime %Y`). -/
def pad4 (n : Nat) : String :=
  if n < 10 then "000" ++ toString n
  else if n < 100 then "00" ++ toString n
  else if n < 1000 then "0" ++ toString n
  else toString n

/-- `strftime "%Y-%m-%d"`. -/
def dateToStr (y m d : Nat) : String :=
  pad4 y ++ "-" ++ pad2 m ++ "-" ++ pad2 d

/-- English weekday names, Monday first (Python weekday index order). -/
def dayNameOf (y m d : Nat) : String :=
  match weekdayOf y m d with
  | 0 => "Monday"
  | 1 => "Tuesday"
  | 2 => "Wednesday"
  | 3 => "Thursday"
  | 4 => "Friday"
  | 5 => "Saturday"
  | _ => "Sunday"

/-- `strftime %b` month abbreviations in the C locale. -/
def monthAbbr (m : Nat) : String :=
  match m with
  | 1 => "Jan" | 2 => "Feb" | 3 => "Mar" | 4 => "Apr"
  | 5 => "May" | 6 => "Jun" | 7 => "Jul" | 8 => "Aug"
  | 9 => "Sep" | 10 => "Oct" | 11 => "Nov" | _ => "Dec"

/-- Python `str.lstrip("0")`: drop every leading `'0'` character. -/
def lstripZeros (s : String) : String :=
  String.mk (s.toList.dropWhile (fun c => c = '0'))

/-- Whitespace characters for Python `str.strip()` (ASCII range). -/
def isPySpace (c : Char) : Bool :=
  c = ' ' || c = '\t' || c = '\n' || c = '\r' || c = '\x0b' || c = '\x0c'

/-- Python `str.strip()`. -/
def pyStrip (s : String) : String :=
  String.mk (((s.toList.dropWhile isPySpace).reverse.dropWhile isPySpace).reverse)

/-- Python `", ".join(parts)`. -/
def joinComma : List String → String
  | [] => ""
  | [x] => x
  | x :: rest => x ++ ", " ++ joinComma rest

/-- Python value model for the `patient_number` field, which in the source
may hold an int, a string, or `None`. -/
inductive PVal where
  | pint (n : Int)
  | pstr (s : String)
  | pnone
deriving DecidableEq, Repr

/-- The truthiness test `patient_val is None or patient_val == "" or
patient_val == 0` from the required-field loop (note `"0" == 0` is false
in Python). -/
def PVal.isEmptyish : PVal → Bool
  | .pnone => true
  | .pstr s => s == ""
  | .pint n => n == 0

/-- Python `int("...")` string conversion: optional surrounding whitespace,
optional sign, then decimal digits. -/
def pyStrToInt (s : String) : Option Int :=
  let t := ((s.toList.dropWhile isPySpace).reverse.dropWhile isPySpace).reverse
  match t with
  | '-' :: rest =>
    if allDigits rest then some (-(digitsToNat rest : Int)) else none
  | '+' :: rest =>
    if allDigits rest then some ((digitsToNat rest : Int)) else none
  | _ => if allDigits t then some ((digitsToNat t : Int)) else none

/-- Python `int(x)` on the modelled value; `None` raises `TypeError`,
an unparsable string raises `ValueError`, both of which the source catches. -/
def PVal.toInt : PVal → Option Int
  | .pint n => some n
  | .pstr s => pyStrToInt s
  | .pnone => none

/-- How the value prints inside an f-string. -/
def PVal.display : PVal → String
  | .pint n => toString n
  | .pstr s => s
  | .pnone => "None"

/-- A session record (a Python dict in the source); `none` models an
absent key. -/
structure Session where
  date : Option String := none
  start_time : Option String := none
  end_time : Option String := none
  scribe_name : Option String := none
  patient_number : Option PVal := none
  submission_id : Option String := none
deriving DecidableEq, Repr

/- Configuration constants from config.py (defaults). -/

def MIN_SESSION_DURATION_MINUTES : Nat := 30
def MAX_SESSION_DURATION_MINUTES : Nat := 480
def WEEKEND_DAYS : List Nat := [5, 6]
def SCRIBE_NAME_MIN_LENGTH : Nat := 2
def SCRIBE_NAME_MAX_LENGTH : Nat := 50
def PATIENT_NUMBER_MIN : Int := 1
def PATIENT_NUMBER_MAX : Int := 999999
def MAX_SESSIONS_PER_DAY : Nat := 2
def MORNING_CUTOFF_TIME : String := "11:59"
def OFF_SESSION_PLACEHOLDER : String := "-"

/- validation.py -/

/-- `validate_session_times` from validation.py: parse both `"HH:MM"`
strings, require strictly increasing times, then check the duration
bounds (both bound violations reported together). -/
def validate_session_times (start_time end_time : String) : Bool × List String :=
  match parseTime start_time, parseTime end_time with
  | some s, some e =>
    if s ≥ e then (false, ["End time must be after start time"])
    else
      let duration_minutes := e - s
      let errors :=
        (if duration_minutes < MIN_SESSION_DURATION_MINUTES then
          ["Session must be at least 30 minutes"] else [])
        ++ (if duration_minutes > MAX_SESSION_DURATION_MINUTES then
          ["Session cannot exceed 480 minutes (8 hours)"] else [])
      (errors.isEmpty, errors)
  | _, _ => (false, ["Invalid time format. Use HH:MM"])

/-- Error for an absent or blank string field in the required-field loop. -/
def requiredFieldError (title : String) (v : Option String) : List String :=
  match v with
  | none => [title ++ " is required"]
  | some s => if pyStrip s = "" then [title ++ " is required"] else []

/-- The required-field errors of `validate_session_data`, in the source's
field order; `patient_number` gets the special empty / `None` / `0` test. -/
def requiredErrors (session : Session) : List String :=
  requiredFieldError "Date" session.date
  ++ requiredFieldError "Start Time" session.start_time
  ++ requiredFieldError "End Time" session.end_time
  ++ requiredFieldError "Scribe Name" session.scribe_name
  ++ (match session.patient_number with
      | none => ["Patient Number is required"]
      | some pv =>
        if pv.isEmptyish then
          ["Patient number is required and cannot be empty"]
        else [])

/-- `validate_session_data` from validation.py. -/
def validate_session_data (session : Session) : Bool × List String :=
  let reqErrs := requiredErrors session
  if reqErrs.isEmpty = false then (false, reqErrs)
  else
    match parseDate (session.date.getD "") with
    | none => (false, ["Invalid date format. Use YYYY-MM-DD"])
    | some _ =>
      let tv := validate_session_times (session.start_time.getD "")
        (session.end_time.getD "")
      let timeErrs := if tv.1 then [] else tv.2
      let scribe := pyStrip (session.scribe_name.getD "")
      let scribeErrs :=
        if scribe.length < SCRIBE_NAME_MIN_LENGTH then
          ["Scribe name must be at least 2 characters"]
        else if scribe.length > SCRIBE_NAME_MAX_LENGTH then
          ["Scribe name cannot exceed 50 characters"]
        else []
      let patientErrs :=
        match ((session.patient_number).getD PVal.pnone).toInt with
        | some p =>
          if p < PATIENT_NUMBER_MIN ∨ p > PATIENT_NUMBER_MAX then
            ["Patient number must be between 1 and 999999"]
          else if p = 0 then ["Patient number cannot be zero"]
          else []
        | none => ["Patient number must be a valid number"]
      let errors := timeErrs ++ scribeErrs ++ patientErrs
      (errors.isEmpty, errors)

/-- The self-comparison skip in `check_session_overlap`: the candidate's
`submission_id` is truthy (present and not `""`) and the existing entry
carries the same id. -/
def skipSelf (newSession existing : Session) : Bool :=
  match newSession.submission_id with
  | some sid => sid != "" && existing.submission_id == some sid
  | none => false

/-- Conflict message built for an overlapping existing session. -/
def conflictMsg (existing : Session) : String :=
  "Overlaps with existing session " ++ existing.start_time.getD ""
  ++ "-" ++ existing.end_time.getD ""
  ++ " (Scribe: " ++ existing.scribe_name.getD ""
  ++ ", Patient: " ++ ((existing.patient_number).getD PVal.pnone).display ++ ")"

/-- The loop of `check_session_overlap` over the existing sessions, given
the candidate's already-parsed minute bounds: self-matches and entries with
malformed times are skipped, overlapping entries contribute a message. -/
def overlapConflicts (newSession : Session) (newStart newEnd : Nat) :
    List Session → List String
  | [] => []
  | e :: rest =>
    if skipSelf newSession e then overlapConflicts newSession newStart newEnd rest
    else
      match parseTime (e.start_time.getD ""), parseTime (e.end_time.getD "") with
      | some es, some ee =>
        if newStart < ee ∧ es < newEnd then
          conflictMsg e :: overlapConflicts newSession newStart newEnd rest
        else overlapConflicts newSession newStart newEnd rest
      | _, _ => overlapConflicts newSession newStart newEnd rest

/-- `check_session_overlap` from validation.py: empty existing set returns
immediately; a candidate whose own times fail to parse fails the whole
check with one generic message. -/
def check_session_overlap (new_session : Session)
    (existing_sessions : List Session) : Bool × List String :=
  if existing_sessions.isEmpty then (false, [])
  else
    match parseTime (new_session.start_time.getD ""),
        parseTime (new_session.end_time.getD "") with
    | some ns, some ne =>
      let conflicts := overlapConflicts new_session ns ne existing_sessions
      (decide (conflicts.length > 0), conflicts)
    | _, _ => (true, ["Invalid time format in new session"])

/-- `check_daily_session_limit` from validation.py; depends on its list
arguments only through their lengths. -/
def check_daily_session_limit (doctor_id date : String)
    (existing_sessions draft_sessions : List Session) : Bool × String :=
  let total_sessions := existing_sessions.length + draft_sessions.length
  if total_sessions > MAX_SESSIONS_PER_DAY then
    (false,
      "Cannot exceed " ++ toString MAX_SESSIONS_PER_DAY
      ++ " sessions per day. Currently have "
      ++ toString existing_sessions.length ++ " submitted + "
      ++ toString draft_sessions.length ++ " draft = "
      ++ toString total_sessions ++ " total")
  else (true, "")

/-- Per-index loop of `validate_draft_sessions`: draft `i` is overlap
checked against `all_sessions[:i] + existing` where
`all_sessions = existing ++ drafts` (exactly as in the source). -/
def vdsLoop (allSessions existing : List Session) :
    Nat → List Session → List (Nat × List String)
  | _, [] => []
  | i, s :: rest =>
    let v := validate_session_data s
    let errors :=
      if v.1 then
        let ov := check_session_overlap s (allSessions.take i ++ existing)
        if ov.1 then ov.2 else []
      else v.2
    (if errors.isEmpty then [] else [(i, errors)])
      ++ vdsLoop allSessions existing (i + 1) rest

/-- `validate_draft_sessions` from validation.py; the error dictionary is
modelled as an index-ordered association list. -/
def validate_draft_sessions (draft_sessions : List Session)
    (existing_sessions : List Session) : Bool × List (Nat × List String) :=
  if draft_sessions.isEmpty then (false, [(0, ["No sessions to validate"])])
  else
    let all_sessions := existing_sessions ++ draft_sessions
    let session_errors := vdsLoop all_sessions existing_sessions 0 draft_sessions
    (session_errors.isEmpty, session_errors)

/-- `is_weekend` from validation.py. -/
def is_weekend (y m d : Nat) : Bool :=
  WEEKEND_DAYS.contains (weekdayOf y m d)

/-- `validate_date_for_scheduling` from validation.py; `today` is the
ordinal of the current date.  All three date-sanity findings go to the
warnings list; the errors list is always empty. -/
def validate_date_for_scheduling (d : Nat × Nat × Nat) (today : Nat) :
    Bool × List String × List String :=
  let ord := toOrdinal d.1 d.2.1 d.2.2
  let warnings :=
    (if ord < today then
      ["Scheduling for past date (" ++ dateToStr d.1 d.2.1 d.2.2 ++ ")"] else [])
    ++ (if is_weekend d.1 d.2.1 d.2.2 then
      ["Selected date is a weekend (" ++ dayNameOf d.1 d.2.1 d.2.2
        ++ "). Weekend override may be required."] else [])
    ++ (if (ord : Int) - (today : Int) > 365 then
      ["Scheduling very far in future ("
        ++ toString ((ord : Int) - (today : Int)) ++ " days)"] else [])
  (true, [], warnings)

/-- Round `num / den` (with `den > 0`) to the nearest integer, ties to
even — the rounding used to model Python's fixed-precision float
formatting on the exact rational values arising here. -/
def roundHalfEven (num : Int) (den : Nat) : Int :=
  let q := num / (den : Int)
  let r := num % (den : Int)
  if 2 * r < (den : Int) then q
  else if 2 * r > (den : Int) then q + 1
  else if q % 2 = 0 then q else q + 1

/-- Summary of `calculate_total_duration`'s returned dictionary.
`total_hours` (a float rounded to 2 decimals in the source) is carried as
centi-hours. -/
structure DurationInfo where
  total_minutes : Nat
  total_hours_centi : Int
  formatted : String
  average_session_minutes : Nat
  valid_sessions : Nat
deriving DecidableEq, Repr

/-- The accumulation loop of `calculate_total_duration`: sessions whose
times fail to parse, or whose end is not after their start, contribute
nothing.  Returns (total minutes, number of valid sessions). -/
def totalDurationLoop : List Session → Nat × Nat
  | [] => (0, 0)
  | s :: rest =>
    let acc := totalDurationLoop rest
    match parseTime (s.start_time.getD ""), parseTime (s.end_time.getD "") with
    | some st, some en =>
      if en > st then (acc.1 + (en - st), acc.2 + 1) else acc
    | _, _ => acc

/-- `calculate_total_duration` from validation.py. -/
def calculate_total_duration (sessions : List Session) : DurationInfo :=
  if sessions.isEmpty then
    { total_minutes := 0, total_hours_centi := 0, formatted := "0:00"
      average_session_minutes := 0, valid_sessions := 0 }
  else
    let acc := totalDurationLoop sessions
    let total_minutes := acc.1
    let valid_sessions := acc.2
    { total_minutes := total_minutes
      total_hours_centi := roundHalfEven (total_minutes * 100) 60
      formatted := toString (total_minutes / 60) ++ ":" ++ pad2 (total_minutes % 60)
      average_session_minutes :=
        if valid_sessions > 0 then total_minutes / valid_sessions else 0
      valid_sessions := valid_sessions }

/-- One entry of `get_time_conflicts_summary`'s conflict list. -/
structure ConflictRec where
  session1_index : Nat
  session2_index : Nat
  session1_time : String
  session2_time : String
  details : String
deriving DecidableEq, Repr

/-- `f"{s['start_time']}-{s['end_time']}"`. -/
def timeRangeStr (s : Session) : String :=
  s.start_time.getD "" ++ "-" ++ s.end_time.getD ""

/-- Result of `get_time_conflicts_summary`. -/
structure ConflictAnalysis where
  has_conflicts : Bool
  conflict_count : Nat
  conflicts : List ConflictRec
deriving DecidableEq, Repr

/-- Inner loop of `get_time_conflicts_summary`: session `i` against each
later session `j`, via `check_session_overlap` on a one-element list. -/
def conflictsInner (i : Nat) (s1 : Session) :
    Nat → List Session → List ConflictRec
  | _, [] => []
  | j, s2 :: rest =>
    let ov := check_session_overlap s1 [s2]
    (if ov.1 then
      [{ session1_index := i, session2_index := j
         session1_time := timeRangeStr s1, session2_time := timeRangeStr s2
         details := ov.2.headD "Time overlap detected" }]
     else [])
    ++ conflictsInner i s1 (j + 1) rest

/-- Outer loop of `get_time_conflicts_summary` over ordered pairs. -/
def conflictsOuter : Nat → List Session → List ConflictRec
  | _, [] => []
  | i, s :: rest => conflictsInner i s (i + 1) rest ++ conflictsOuter (i + 1) rest

/-- `get_time_conflicts_summary` from validation.py. -/
def get_time_conflicts_summary (sessions : List Session) : ConflictAnalysis :=
  let conflicts := conflictsOuter 0 sessions
  { has_conflicts := decide (conflicts.length > 0)
    conflict_count := conflicts.length
    conflicts := conflicts }

/-- Result dictionary of `validate_submission_readiness`. -/
structure Readiness where
  ready_for_submission : Bool
  errors : List String
  warnings : List String
  session_count : Nat
  duration_info : DurationInfo
  conflict_analysis : ConflictAnalysis
deriving DecidableEq, Repr

/-- The error list accumulated by `validate_submission_readiness`, in the
source's order: empty-batch, daily-limit, per-session, date, conflict-scan
errors.  `today` is the current date's ordinal. -/
def vsrErrors (doctor_id date : String)
    (draft_sessions existing_sessions : List Session) (today : Nat) :
    List String :=
  (if draft_sessions.isEmpty then ["No sessions to submit"] else [])
  ++ (let lim := check_daily_session_limit doctor_id date
        existing_sessions draft_sessions
      if lim.1 then [] else [lim.2])
  ++ (if draft_sessions.isEmpty then []
      else
        let vds := validate_draft_sessions draft_sessions existing_sessions
        if vds.1 then []
        else vds.2.flatMap (fun p =>
          p.2.map (fun err => "Session " ++ toString (p.1 + 1) ++ ": " ++ err)))
  ++ (match parseDate date with
      | some d => (validate_date_for_scheduling d today).2.1
      | none => ["Invalid date format"])
  ++ ((get_time_conflicts_summary
        (existing_sessions ++ draft_sessions)).conflicts.map
      (fun c => "Time conflict: " ++ c.details))

/-- The warning list accumulated by `validate_submission_readiness` (only
the date-sanity check contributes warnings). -/
def vsrWarnings (date : String) (today : Nat) : List String :=
  match parseDate date with
  | some d => (validate_date_for_scheduling d today).2.2
  | none => []

/-- `validate_submission_readiness` from validation.py. -/
def validate_submission_readiness (doctor_id date : String)
    (draft_sessions existing_sessions : List Session) (today : Nat) :
    Readiness :=
  { ready_for_submission :=
      (vsrErrors doctor_id date draft_sessions existing_sessions today).isEmpty
    errors := vsrErrors doctor_id date draft_sessions existing_sessions today
    warnings := vsrWarnings date today
    session_count := draft_sessions.length
    duration_info := calculate_total_duration draft_sessions
    conflict_analysis :=
      get_time_conflicts_summary (existing_sessions ++ draft_sessions) }

/- pages/02_Export_Page.py -/

/-- One entry of the list produced by `generate_month_calendar`. -/
structure DayInfo where
  date : Nat × Nat × Nat
  date_str : String
  day_name : String
  is_weekend_day : Bool
  formatted_date : String
deriving DecidableEq, Repr

/-- Build the day dictionary for one calendar day. -/
def mkDayInfo (y m d : Nat) : DayInfo :=
  { date := (y, m, d)
    date_str := dateToStr y m d
    day_name := dayNameOf y m d
    is_weekend_day := is_weekend y m d
    formatted_date :=
      lstripZeros (pad2 d ++ "-" ++ monthAbbr m ++ "-" ++ pad2 (y % 100)) }

/-- Successor day in the Gregorian calendar. -/
def nextDay (y m d : Nat) : Nat × Nat × Nat :=
  if d < daysInMonth y m then (y, m, d + 1)
  else if m < 12 then (y, m + 1, 1)
  else (y + 1, 1, 1)

/-- The `while current_date <= month_end` loop of `generate_month_calendar`,
with explicit fuel (chosen at the call site to cover the whole range). -/
def calendarDaysLoop : Nat → Nat → Nat → Nat → Nat → List DayInfo
  | 0, _, _, _, _ => []
  | fuel + 1, y, m, d, endOrd =>
    if toOrdinal y m d > endOrd then []
    else
      let nd := nextDay y m d
      mkDayInfo y m d :: calendarDaysLoop fuel nd.1 nd.2.1 nd.2.2 endOrd

/-- `generate_month_calendar` from pages/02_Export_Page.py.  The source
computes `month_end` as
`month_start.replace(month=month_start.month % 12 + 1, day=1) - 1 day`,
keeping the year unchanged; the embedding reproduces that computation.
A month string that fails to parse raises in the source, modelled as
`none`. -/
def generate_month_calendar (month : String) : Option (List DayInfo) :=
  match parseDate (month ++ "-01") with
  | none => none
  | some (y, m, _) =>
    let startOrd := toOrdinal y m 1
    let endOrd := toOrdinal y (m % 12 + 1) 1 - 1
    some (calendarDaysLoop (endOrd + 1 - startOrd) y m 1 endOrd)

/-- Append a session to its date group, preserving first-seen key order
(Python dict insertion order). -/
def addToGroup (groups : List (String × List Session)) (key : String)
    (s : Session) : List (String × List Session) :=
  match groups with
  | [] => [(key, [s])]
  | (k, v) :: rest =>
    if k = key then (k, v ++ [s]) :: rest
    else (k, v) :: addToGroup rest key s

/-- Stable insertion into a list sorted by `start_time` (string order). -/
def insertByStart (s : Session) : List Session → List Session
  | [] => [s]
  | t :: rest =>
    if (t.start_time.getD "") < (s.start_time.getD "") then
      t :: insertByStart s rest
    else s :: t :: rest

/-- Stable sort by `start_time`, modelling Python's `list.sort` with the
`start_time` key. -/
def sortByStart (l : List Session) : List Session :=
  l.foldr insertByStart []

/-- `organize_sessions_by_date` from pages/02_Export_Page.py. -/
def organize_sessions_by_date (sessions : List Session) :
    List (String × List Session) :=
  let grouped := sessions.foldl
    (fun gs s => addToGroup gs (s.date.getD "") s) []
  grouped.map (fun g => (g.1, sortByStart g.2))

/-- `dict.get(key, [])` on the grouped sessions. -/
def lookupSessions (groups : List (String × List Session)) (key : String) :
    List Session :=
  match groups with
  | [] => []
  | (k, v) :: rest => if k = key then v else lookupSessions rest key

/-- A spreadsheet cell value (the source mixes booleans and strings in one
row list). -/
inductive Cell where
  | b (x : Bool)
  | s (x : String)
deriving DecidableEq, Repr

/-- Format a signed tenths value the way `f"{x:.1f}"` renders the exact
one-decimal values arising here. -/
def fmtTenths (t : Int) : String :=
  (if t < 0 then "-" else "")
  ++ toString (t.natAbs / 10) ++ "." ++ toString (t.natAbs % 10)

/-- `f"{minutes/60:.1f}"` for an integer number of minutes. -/
def hoursStr (minutes : Int) : String :=
  fmtTenths (roundHalfEven minutes 6)

/-- The four cells emitted for one slot, plus the slot's contribution to
the daily total and to the combined scribe / patient-number lists.
`none` is an OFF slot. -/
def slotCells : Option Session → List Cell × Int × List String × List String
  | none =>
    ([Cell.b true, Cell.s OFF_SESSION_PLACEHOLDER,
      Cell.s OFF_SESSION_PLACEHOLDER, Cell.s OFF_SESSION_PLACEHOLDER],
     0, [], [])
  | some s =>
    let dur : Option Int :=
      match parseTime (s.start_time.getD ""), parseTime (s.end_time.getD "") with
      | some st, some en => some ((en : Int) - (st : Int))
      | _, _ => none
    let durationHoursStr := match dur with
      | some m => hoursStr m
      | none => "0.0"
    ([Cell.b false, Cell.s (s.start_time.getD ""),
      Cell.s (s.end_time.getD ""), Cell.s (durationHoursStr ++ "h")],
     dur.getD 0,
     [s.scribe_name.getD ""],
     ["#" ++ ((s.patient_number).getD PVal.pnone).display])

/-- The session-placement decision of `generate_excel_data` for one day:
0 sessions → both OFF; 1 session → by start time against the morning
cutoff (slot 1 on parse failure); 2 or more → first two in sorted order. -/
def placeSessions (day_sessions : List Session) :
    Option Session × Option Session :=
  match day_sessions with
  | [] => (none, none)
  | [s] =>
    (match parseTime (s.start_time.getD ""), parseTime MORNING_CUTOFF_TIME with
     | some t, some cutoff => if t ≤ cutoff then (some s, none) else (none, some s)
     | _, _ => (some s, none))
  | s1 :: s2 :: _ => (some s1, some s2)

/-- One data row of `generate_excel_data`. -/
def buildRow (sessions_by_date : List (String × List Session))
    (day : DayInfo) : List Cell :=
  let day_sessions := lookupSessions sessions_by_date day.date_str
  let slots := placeSessions day_sessions
  let c1 := slotCells slots.1
  let c2 := slotCells slots.2
  let daily_total_minutes := c1.2.1 + c2.2.1
  let active_scribes := c1.2.2.1 ++ c2.2.2.1
  let active_patients := c1.2.2.2 ++ c2.2.2.2
  [Cell.s day.formatted_date, Cell.s day.day_name]
  ++ c1.1 ++ c2.1
  ++ [Cell.s (if daily_total_minutes > 0 then
        hoursStr daily_total_minutes ++ "h" else "0.0h"),
      Cell.s (if active_scribes.isEmpty then OFF_SESSION_PLACEHOLDER
        else joinComma active_scribes),
      Cell.s (if active_patients.isEmpty then OFF_SESSION_PLACEHOLDER
        else joinComma active_patients)]

/-- `generate_excel_data` from pages/02_Export_Page.py (the
`max_sessions` argument is accepted and, as in the source's current body,
not consulted: the layout is fixed at two slots). -/
def generate_excel_data (doctor_sessions : List Session)
    (month_days : List DayInfo) (max_sessions : Nat) : List (List Cell) :=
  let sessions_by_date := organize_sessions_by_date doctor_sessions
  month_days.map (buildRow sessions_by_date)

/- Concrete sessions used in witnesses and counterexamples. -/

/-- A valid existing session 07:00-08:00. -/
def sessE : Session :=
  { date := some "2025-07-28", start_time := some "07:00", end_time := some "08:00"
    scribe_name := some "Bob", patient_number := some (PVal.pint 22222) }

/-- A valid session 09:00-10:00. -/
def sessA : Session :=
  { date := some "2025-07-28", start_time := some "09:00", end_time := some "10:00"
    scribe_name := some "Alice", patient_number := some (PVal.pint 12345) }

/-- A valid session 09:30-10:30, overlapping `sessA`. -/
def sessB : Session :=
  { date := some "2025-07-28", start_time := some "09:30", end_time := some "10:30"
    scribe_name := some "Carol", patient_number := some (PVal.pint 33333) }

/-- C2: `check_daily_session_limit` is within limit, with an empty message,
exactly when `existing + draft ≤ MAX_SESSIONS_PER_DAY`; exceeding the limit
produces a non-empty message. -/
theorem c2_daily_limit_boundary (doctor_id dt : String)
    (existing draft : List Session) :
    (((check_daily_session_limit doctor_id dt existing draft).1 = true ∧
        (check_daily_session_limit doctor_id dt existing draft).2 = "") ↔
      existing.length + draft.length ≤ MAX_SESSIONS_PER_DAY) ∧
    (MAX_SESSIONS_PER_DAY < existing.length + draft.length →
      (check_daily_session_limit doctor_id dt existing draft).2 ≠ "") := by
  unfold check_daily_session_limit
  constructor
  · by_cases h : existing.length + draft.length > MAX_SESSIONS_PER_DAY
    · simp [h]
    · simp [h]
      omega
  · intro hgt
    have h : existing.length + draft.length > MAX_SESSIONS_PER_DAY := hgt
    simp only [if_pos h]
    intro heq
    have h2 := congrArg String.length heq
    simp only [String.length_append] at h2
    have h3 : ("Cannot exceed ").length = 14 := by decide
    have h4 : ("" : String).length = 0 := by decide
    omega

/-- C2 witness: with the default maximum of 2, one existing plus one draft
session is allowed with an empty message, and two existing plus one draft
is rejected with a non-empty message. -/
theorem c2_daily_limit_boundary_witness :
    ((check_daily_session_limit "doctor-1" "2025-07-28" [sessE] [sessA]).1 = true ∧
      (check_daily_session_limit "doctor-1" "2025-07-28" [sessE] [sessA]).2 = "") ∧
    (check_daily_session_limit "doctor-1" "2025-07-28" [sessE, sessA] [sessB]).2 ≠ "" :=
  ⟨(c2_daily_limit_boundary "doctor-1" "2025-07-28" [sessE] [sessA]).1.mpr (by decide),
   (c2_daily_limit_boundary "doctor-1" "2025-07-28" [sessE, sessA] [sessB]).2 (by decide)⟩

/-- C10: `check_daily_session_limit` depends only on the lengths of its two
list arguments; the doctor, date and session contents are irrelevant. -/
theorem c10_limit_depends_only_on_lengths (d1 d2 dt1 dt2 : String)
    (e1 e2 dr1 dr2 : List Session)
    (he : e1.length = e2.length) (hd : dr1.length = dr2.length) :
    check_daily_session_limit d1 dt1 e1 dr1 =
      check_daily_session_limit d2 dt2 e2 dr2 := by
  unfold check_daily_session_limit
  rw [he, hd]

/-- C10 witness: two calls with different doctors, dates and session
contents but equal list lengths return the same result. -/
theorem c10_limit_depends_only_on_lengths_witness :
    [sessE].length = [sessA].length ∧
    [sessA, sessB].length = [sessB, sessE].length ∧
    check_daily_session_limit "doctor-1" "2025-07-28" [sessE] [sessA, sessB] =
      check_daily_session_limit "doctor-2" "2026-01-01" [sessA] [sessB, sessE] :=
  ⟨rfl, rfl,
    c10_limit_depends_only_on_lengths "doctor-1" "doctor-2" "2025-07-28" "2026-01-01"
      [sessE] [sessA] [sessA, sessB] [sessB, sessE] rfl rfl⟩

/-- C4: with one existing session, `validate_draft_sessions` misses the
overlap between two drafts in the same batch (the source checks draft `i`
against `all_sessions[:i] + existing` where `all_sessions` starts with the
existing sessions, so the preceding draft is shifted out of the window);
with no existing sessions the same two drafts are correctly reported.  The
final conjunct records that the two drafts do overlap pairwise. -/
theorem c4_later_draft_conflict_missed :
    validate_draft_sessions [sessA, sessB] [sessE] = (true, []) ∧
    validate_draft_sessions [sessA, sessB] [] =
      (false,
        [(1, ["Overlaps with existing session 09:00-10:00 (Scribe: Alice, Patient: 12345)"])]) ∧
    (check_session_overlap sessB [sessA]).1 = true := by
  refine ⟨rfl, rfl, rfl⟩

/-- C5: `generate_month_calendar` returns an empty day list for December
(the source computes the month end as `month % 12 + 1` without advancing
the year, making `month_end` fall before `month_start`), while November
correctly yields 30 days; `generate_excel_data` emits exactly one row per
provided day, so a December report has zero rows. -/
theorem c5_december_month_empty :
    generate_month_calendar "2025-12" = some [] ∧
    (generate_month_calendar "2025-11").map List.length = some 30 ∧
    ∀ (ds : List Session) (days : List DayInfo) (ms : Nat),
      (generate_excel_data ds days ms).length = days.length := by
  refine ⟨rfl, rfl, ?_⟩
  intro ds days ms
  simp [generate_excel_data]

/-- A session with a fixed valid field set and a variable patient number. -/
def patientSession (pv : PVal) : Session :=
  { date := some "2025-07-28", start_time := some "09:00", end_time := some "10:00"
    scribe_name := some "Alice", patient_number := some pv }

/-- C6 counterexample: a session with `patient_number = 0` is rejected
with exactly the same message as a session with `patient_number = ""` —
the required-field loop catches the integer zero with the required/missing
message before the dedicated zero branch can run — contradicting the
claim that the two messages are distinct. -/
theorem c6_zero_vs_empty_counterexample :
    (validate_session_data (patientSession (PVal.pint 0))).2 =
      (validate_session_data (patientSession (PVal.pstr ""))).2 ∧
    (validate_session_data (patientSession (PVal.pint 0))).2 =
      ["Patient number is required and cannot be empty"] := ⟨rfl, rfl⟩

/-- C6 amended: a session with `patient_number = 0` (all other fields
non-blank) is rejected with the required/missing message — the same
message as for an empty patient number, not a dedicated zero message —
while `patient_number = 1000000` gets the distinct out-of-range message. -/
theorem c6_zero_rejected_as_missing :
    (∀ d st et sc : String,
      pyStrip d ≠ "" → pyStrip st ≠ "" → pyStrip et ≠ "" → pyStrip sc ≠ "" →
      validate_session_data
        { date := some d, start_time := some st, end_time := some et
          scribe_name := some sc, patient_number := some (PVal.pint 0) } =
        (false, ["Patient number is required and cannot be empty"])) ∧
    validate_session_data (patientSession (PVal.pint 1000000)) =
      (false, ["Patient number must be between 1 and 999999"]) ∧
    ("Patient number is required and cannot be empty" ≠
      "Patient number must be between 1 and 999999") := by
  refine ⟨?_, rfl, by decide⟩
  intro d st et sc hd hst het hsc
  simp [validate_session_data, requiredErrors, requiredFieldError,
    PVal.isEmptyish, hd, hst, het, hsc]

/-- C6 witness: the amended statement at a concrete session. -/
theorem c6_zero_rejected_as_missing_witness :
    validate_session_data
      { date := some "2025-07-28", start_time := some "09:00"
        end_time := some "10:00", scribe_name := some "Alice"
        patient_number := some (PVal.pint 0) } =
      (false, ["Patient number is required and cannot be empty"]) :=
  c6_zero_rejected_as_missing.1 "2025-07-28" "09:00" "10:00" "Alice"
    (by decide) (by decide) (by decide) (by decide)

/-- A valid session 10:00-11:00, back-to-back after `sessA`. -/
def sessC : Session :=
  { date := some "2025-07-28", start_time := some "10:00", end_time := some "11:00"
    scribe_name := some "Dana", patient_number := some (PVal.pint 44444) }

/-- Candidate carrying submission id S1. -/
def sidCand : Session :=
  { start_time := some "09:00", end_time := some "10:00"
    scribe_name := some "Alice", patient_number := some (PVal.pint 1)
    submission_id := some "S1" }

/-- Existing session with the same submission id S1 and identical times. -/
def sidExist : Session :=
  { start_time := some "09:00", end_time := some "10:00"
    scribe_name := some "Bob", patient_number := some (PVal.pint 2)
    submission_id := some "S1" }

/-- C1 counterexample: candidate and existing session both parse, their
minute intervals satisfy the strict overlap condition, yet no overlap is
reported, because the pair is skipped as a submission-id self-match — so
the claimed unconditional iff fails. -/
theorem c1_selfmatch_counterexample :
    parseTime ((sidCand).start_time.getD "") = some 540 ∧
    parseTime ((sidCand).end_time.getD "") = some 600 ∧
    parseTime ((sidExist).start_time.getD "") = some 540 ∧
    parseTime ((sidExist).end_time.getD "") = some 600 ∧
    (540 < 600 ∧ 540 < 600) ∧
    (check_session_overlap sidCand [sidExist]).1 = false :=
  ⟨rfl, rfl, rfl, rfl, by decide, rfl⟩

/-- C1 amended: for a candidate and an existing session whose times parse
and which are not excluded as a submission-id self-match,
`check_session_overlap` reports overlap iff
candidate.start < existing.end and existing.start < candidate.end
(half-open semantics). -/
theorem c1_overlap_iff (c e : Session) (cs ce es ee : Nat)
    (hcs : parseTime (c.start_time.getD "") = some cs)
    (hce : parseTime (c.end_time.getD "") = some ce)
    (hes : parseTime (e.start_time.getD "") = some es)
    (hee : parseTime (e.end_time.getD "") = some ee)
    (hskip : skipSelf c e = false) :
    ((check_session_overlap c [e]).1 = true ↔ (cs < ee ∧ es < ce)) := by
  unfold check_session_overlap overlapConflicts
  simp [hcs, hce, hes, hee, hskip]
  by_cases h : cs < ee ∧ es < ce
  · simp [h, overlapConflicts]
  · simp [h, overlapConflicts]

/-- C1 witness: back-to-back sessions 09:00-10:00 and 10:00-11:00 fall
under the iff with condition `540 < 660 ∧ 600 < 600`, which is false — so
they are never reported as a conflict. -/
theorem c1_overlap_iff_witness :
    ((check_session_overlap sessA [sessC]).1 = true ↔ (540 < 660 ∧ 600 < 600)) :=
  c1_overlap_iff sessA sessC 540 600 600 660 rfl rfl rfl rfl rfl

/-- The self-match test of `check_session_overlap` is symmetric. -/
theorem skipSelf_symm (a b : Session) : skipSelf a b = skipSelf b a := by
  unfold skipSelf
  cases ha : a.submission_id with
  | none =>
    cases hb : b.submission_id with
    | none => rfl
    | some t =>
      by_cases ht : t = ""
      · simp [ht, ha]
      · simp [ht, ha]
  | some s =>
    cases hb : b.submission_id with
    | none =>
      by_cases hs : s = ""
      · simp [hs, hb]
      · simp [hs, hb]
    | some t =>
      by_cases hst : s = t
      · subst hst
        rfl
      · have h1 : (t == s) = false := beq_eq_false_iff_ne.mpr (Ne.symm hst)
        have h2 : (s == t) = false := beq_eq_false_iff_ne.mpr hst
        simp [h1, h2]

/-- A session whose start time does not parse. -/
def malformedSess : Session :=
  { date := some "2025-07-28", start_time := some "9x:00", end_time := some "10:00"
    scribe_name := some "Mal", patient_number := some (PVal.pint 9) }

/-- C9 counterexample: with a malformed start time on one side the overlap
verdict is asymmetric — the malformed candidate fails the whole check
(overlap true) while as an existing entry it is skipped silently (overlap
false). -/
theorem c9_malformed_asymmetry_counterexample :
    (check_session_overlap malformedSess [sessA]).1 = true ∧
    (check_session_overlap sessA [malformedSess]).1 = false ∧
    (check_session_overlap malformedSess [sessA]).1 ≠
      (check_session_overlap sessA [malformedSess]).1 :=
  ⟨rfl, rfl, by decide⟩

/-- C9 amended: the overlap verdict is symmetric whenever both sessions'
time strings parse, submission ids included (the self-match skip is itself
symmetric). -/
theorem c9_overlap_symm (a b : Session) (ast aen bst ben : Nat)
    (h1 : parseTime (a.start_time.getD "") = some ast)
    (h2 : parseTime (a.end_time.getD "") = some aen)
    (h3 : parseTime (b.start_time.getD "") = some bst)
    (h4 : parseTime (b.end_time.getD "") = some ben) :
    (check_session_overlap a [b]).1 = (check_session_overlap b [a]).1 := by
  have hss := skipSelf_symm a b
  by_cases hsk : skipSelf a b = true
  · have hsk2 : skipSelf b a = true := hss ▸ hsk
    unfold check_session_overlap
    simp [h1, h2, h3, h4, overlapConflicts, hsk, hsk2]
  · have hskf : skipSelf a b = false := by
      revert hsk
      cases skipSelf a b <;> simp
    have hskf2 : skipSelf b a = false := hss ▸ hskf
    unfold check_session_overlap
    simp [h1, h2, h3, h4, overlapConflicts, hskf, hskf2]
    by_cases hc : ast < ben ∧ bst < aen
    · simp [hc.1, hc.2]
    · have hc2 : ¬(bst < aen ∧ ast < ben) := fun hx => hc ⟨hx.2, hx.1⟩
      simp [hc, hc2]

/-- C9 witness: the symmetric verdict at two concrete overlapping
sessions. -/
theorem c9_overlap_symm_witness :
    (check_session_overlap sessA [sessB]).1 =
      (check_session_overlap sessB [sessA]).1 :=
  c9_overlap_symm sessA sessB 540 600 570 630 rfl rfl rfl rfl

/-- Removing an existing entry whose times do not parse never changes the
conflict list computed for a parsed candidate. -/
theorem overlapConflicts_skip_malformed (c : Session) (cs ce : Nat) (e : Session)
    (hm : parseTime (e.start_time.getD "") = none ∨
      parseTime (e.end_time.getD "") = none) (pre post : List Session) :
    overlapConflicts c cs ce (pre ++ e :: post) =
      overlapConflicts c cs ce (pre ++ post) := by
  induction pre with
  | nil =>
    simp only [List.nil_append]
    by_cases hsk : skipSelf c e = true
    · simp [overlapConflicts, hsk]
    · have hskf : skipSelf c e = false := by
        revert hsk
        cases skipSelf c e <;> simp
      rcases hm with hm | hm
      · simp [overlapConflicts, hskf, hm]
      · cases hps : parseTime (e.start_time.getD "") <;>
          simp [overlapConflicts, hskf, hm, hps]
  | cons x xs ih =>
    simp only [List.cons_append]
    simp only [overlapConflicts]
    rw [ih]

/-- C8 counterexample: with an EMPTY existing set, a candidate whose time
strings are malformed does not fail the check — the function returns
`(False, [])` before ever looking at the candidate — contradicting the
claim that the candidate-failure behaviour holds for the empty set too. -/
theorem c8_empty_existing_counterexample :
    check_session_overlap malformedSess [] = (false, []) ∧
    ¬ ((check_session_overlap malformedSess []).1 = true) := ⟨rfl, by decide⟩

/-- C8 amended: against any NON-EMPTY existing set a malformed candidate
fails the whole check with the single generic format message, and a
malformed existing entry is skipped silently — deleting it from the list
never changes the result for a parsed candidate. -/
theorem c8_malformed_time_handling :
    (∀ (c : Session) (es : List Session), es ≠ [] →
      (parseTime (c.start_time.getD "") = none ∨
        parseTime (c.end_time.getD "") = none) →
      check_session_overlap c es = (true, ["Invalid time format in new session"])) ∧
    (∀ (c e : Session) (pre post : List Session) (cs ce : Nat),
      parseTime (c.start_time.getD "") = some cs →
      parseTime (c.end_time.getD "") = some ce →
      (parseTime (e.start_time.getD "") = none ∨
        parseTime (e.end_time.getD "") = none) →
      check_session_overlap c (pre ++ e :: post) =
        check_session_overlap c (pre ++ post)) := by
  constructor
  · intro c es hne hm
    have hi : es.isEmpty = false := by
      cases es with
      | nil => exact absurd rfl hne
      | cons a l => rfl
    unfold check_session_overlap
    rcases hm with hm | hm
    · simp [hi, hm]
    · cases hps : parseTime (c.start_time.getD "") <;> simp [hi, hm, hps]
  · intro c e pre post cs ce h1 h2 hm
    have hL : (pre ++ e :: post).isEmpty = false := by
      cases pre <;> rfl
    unfold check_session_overlap
    cases hpp : (pre ++ post).isEmpty with
    | false =>
      simp [hL, hpp, h1, h2, overlapConflicts_skip_malformed c cs ce e hm pre post]
    | true =>
      have hpn : pre = [] ∧ post = [] := by
        cases pre with
        | nil =>
          cases post with
          | nil => exact ⟨rfl, rfl⟩
          | cons a l => simp at hpp
        | cons a l => simp at hpp
      obtain ⟨hp1, hp2⟩ := hpn
      subst hp1
      subst hp2
      simp [hL, h1, h2, overlapConflicts]
      intro h
      rcases hm with hm | hm
      · simp [hm]
      · cases hps : parseTime (e.start_time.getD "") <;> simp [hm, hps]

/-- C8 witness: the amended statement at concrete sessions — a malformed
candidate against one existing session fails generically, and a malformed
existing entry in the middle of a list is skipped without affecting the
result. -/
theorem c8_malformed_time_handling_witness :
    check_session_overlap malformedSess [sessA] =
      (true, ["Invalid time format in new session"]) ∧
    check_session_overlap sessA [sessE, malformedSess, sessB] =
      check_session_overlap sessA [sessE, sessB] :=
  ⟨c8_malformed_time_handling.1 malformedSess [sessA] (by decide) (Or.inl rfl),
   c8_malformed_time_handling.2 sessA malformedSess [sessE] [sessB] 540 600
     rfl rfl (Or.inl rfl)⟩

/-- C3: `validate_submission_readiness` is ready exactly when its error
list is empty; the error list and the verdict are independent of the
current date (`today`), which only feeds the date-sanity warnings; and
`validate_date_for_scheduling` always returns a true verdict with an empty
error list — its past/weekend/far-future findings are warnings only. -/
theorem c3_ready_iff_no_errors (doctor_id dt : String)
    (draft existing : List Session) (t1 t2 : Nat) :
    ((validate_submission_readiness doctor_id dt draft existing t1).ready_for_submission
        = true ↔
      (validate_submission_readiness doctor_id dt draft existing t1).errors = []) ∧
    (validate_submission_readiness doctor_id dt draft existing t1).errors =
      (validate_submission_readiness doctor_id dt draft existing t2).errors ∧
    (validate_submission_readiness doctor_id dt draft existing t1).ready_for_submission =
      (validate_submission_readiness doctor_id dt draft existing t2).ready_for_submission ∧
    (∀ (d : Nat × Nat × Nat) (t : Nat),
      (validate_date_for_scheduling d t).1 = true ∧
      (validate_date_for_scheduling d t).2.1 = []) := by
  have hinv : vsrErrors doctor_id dt draft existing t1 =
      vsrErrors doctor_id dt draft existing t2 := by
    unfold vsrErrors
    cases hp : parseDate dt <;> simp [hp, validate_date_for_scheduling]
  refine ⟨?_, ?_, ?_, ?_⟩
  · simp [validate_submission_readiness, List.isEmpty_iff]
  · simp [validate_submission_readiness, hinv]
  · simp [validate_submission_readiness, hinv]
  · intro d t
    exact ⟨rfl, rfl⟩

/-- C7: for a report day carrying exactly one session, the row places the
session in Slot 1 (off-flag false at column 2, its times at columns 3-4)
with Slot 2 OFF (flag true at column 6, placeholder at column 7) when its
start time parses at or before the 11:59 cutoff; in Slot 2 with Slot 1 OFF
when it starts strictly after the cutoff; and in Slot 1 by default when
the start time fails to parse. -/
theorem c7_single_session_placement (sess : Session) (day : DayInfo)
    (hd : sess.date = some day.date_str) :
    ∃ row : List Cell,
      generate_excel_data [sess] [day] 2 = [row] ∧
      parseTime MORNING_CUTOFF_TIME = some 719 ∧
      (∀ t, parseTime (sess.start_time.getD "") = some t → t ≤ 719 →
        (row.get? 2 = some (Cell.b false) ∧
         row.get? 3 = some (Cell.s (sess.start_time.getD "")) ∧
         row.get? 4 = some (Cell.s (sess.end_time.getD "")) ∧
         row.get? 6 = some (Cell.b true) ∧
         row.get? 7 = some (Cell.s OFF_SESSION_PLACEHOLDER))) ∧
      (∀ t, parseTime (sess.start_time.getD "") = some t → 719 < t →
        (row.get? 2 = some (Cell.b true) ∧
         row.get? 3 = some (Cell.s OFF_SESSION_PLACEHOLDER) ∧
         row.get? 6 = some (Cell.b false) ∧
         row.get? 7 = some (Cell.s (sess.start_time.getD "")) ∧
         row.get? 8 = some (Cell.s (sess.end_time.getD "")))) ∧
      (parseTime (sess.start_time.getD "") = none →
        (row.get? 2 = some (Cell.b false) ∧
         row.get? 3 = some (Cell.s (sess.start_time.getD "")) ∧
         row.get? 6 = some (Cell.b true) ∧
         row.get? 7 = some (Cell.s OFF_SESSION_PLACEHOLDER))) := by
  have hds : sess.date.getD "" = day.date_str := by rw [hd]; rfl
  have hc119 : parseTime "11:59" = some 719 := rfl
  have horg : organize_sessions_by_date [sess] = [(day.date_str, [sess])] := by
    simp [organize_sessions_by_date, addToGroup, sortByStart, insertByStart, hds]
  refine ⟨buildRow (organize_sessions_by_date [sess]) day, rfl, rfl, ?_, ?_, ?_⟩
  · intro t hpt hle
    simp [buildRow, horg, lookupSessions, placeSessions, hpt, hds, sortByStart,
      insertByStart, MORNING_CUTOFF_TIME, hc119, hle, slotCells,
      OFF_SESSION_PLACEHOLDER]
  · intro t hpt hgt
    have hnle : ¬ (t ≤ 719) := by omega
    simp [buildRow, horg, lookupSessions, placeSessions, hpt, hds, sortByStart,
      insertByStart, MORNING_CUTOFF_TIME, hc119, hnle, slotCells,
      OFF_SESSION_PLACEHOLDER]
  · intro hpt
    simp [buildRow, horg, lookupSessions, placeSessions, hpt, hds, sortByStart,
      insertByStart, slotCells, OFF_SESSION_PLACEHOLDER]

/-- C7 witness: a lone 09:00-10:00 session on 2025-07-28 lands in Slot 1
with Slot 2 OFF. -/
theorem c7_single_session_placement_witness :
    ∃ row : List Cell,
      generate_excel_data [sessA] [mkDayInfo 2025 7 28] 2 = [row] ∧
      row.get? 2 = some (Cell.b false) ∧
      row.get? 6 = some (Cell.b true) := by
  obtain ⟨row, hrow, hcut, h1, h2, h3⟩ :=
    c7_single_session_placement sessA (mkDayInfo 2025 7 28) rfl
  have hx := h1 540 rfl (by decide)
  exact ⟨row, hrow, hx.1, hx.2.2.2.1⟩

end PapaMeds
